import Mathlib

/-!
Verification of the login and add-expense components of the dailyexpense
repository. The login component (src/component/login/Login.tsx) holds a
three-field form, validates it, writes a document to a remote "users"
collection, sets a session cookie and navigates; the add-expense component
(src/component/addexpense/Component/AddExpense.tsx) holds a participant
multi-select. Effectful handlers are embedded as pure functions producing
an explicit trace of events, and component state is threaded explicitly.
-/

namespace DailyExpense

/-- The three string fields collected by the login form (interface FormValues). -/
structure FormValues where
  name : String
  mobileNumber : String
  password : String
deriving Repr, DecidableEq

/-- Validation messages, one optional entry per field (interface Errors).
`none` models the key being absent from the JS record. -/
structure Errors where
  name : Option String := none
  mobileNumber : Option String := none
  password : Option String := none
deriving Repr, DecidableEq

/-- `Object.keys(e).length > 0` is false exactly when all three keys are absent. -/
def Errors.isEmpty (e : Errors) : Bool :=
  e.name.isNone && e.mobileNumber.isNone && e.password.isNone

/-- JavaScript `String.prototype.trim`: drop leading and trailing
whitespace characters. -/
def jsTrim (s : String) : String :=
  String.mk (((s.data.dropWhile Char.isWhitespace).reverse.dropWhile
    Char.isWhitespace).reverse)

/-- Helper for JavaScript `String.prototype.split(',')`: walk the character
list, cutting a chunk at every comma. -/
def splitCommaAux : List Char → List Char → List String
  | [], acc => [String.mk acc.reverse]
  | c :: cs, acc =>
      if c = ',' then String.mk acc.reverse :: splitCommaAux cs []
      else splitCommaAux cs (c :: acc)

/-- JavaScript `value.split(',')`: the chunks between commas, in order;
the empty string splits to `[""]`. -/
def jsSplitComma (s : String) : List String :=
  splitCommaAux s.data []

/-- The regex test `/^\d{10}$/.test s`: the whole string is exactly ten
decimal digits. -/
def isTenDigits (s : String) : Bool :=
  s.length == 10 && s.data.all Char.isDigit

/-- validateForm from Login.tsx: name required after trim; mobile number
required after trim, else must match the ten-digit regex on the untrimmed
string; password required after trim, else its untrimmed length must be at
least 6. Each failing rule stores its message under its own key. -/
def validateForm (fv : FormValues) : Errors :=
  { name :=
      if jsTrim fv.name = "" then some "Name is required"
      else none
    mobileNumber :=
      if jsTrim fv.mobileNumber = "" then some "Mobile number is required"
      else if isTenDigits fv.mobileNumber then none
      else some "Mobile number must be 10 digits"
    password :=
      if jsTrim fv.password = "" then some "Password is required"
      else if fv.password.length < 6 then some "Password must be at least 6 characters"
      else none }

/-- Observable effects of the login component's handlers, in program order:
state setters, the remote document create (with its collection, payload and
whether it succeeded), cookie writes, router navigation, console logging and
blocking alerts. -/
inductive Event where
  | setLoader (b : Bool)
  | remoteCreate (coll : String) (doc : FormValues) (ok : Bool)
  | setFormValues (fv : FormValues)
  | setErrors (e : Errors)
  | setCookie (key value : String) (expiryDay : Nat)
  | navigate (route : String)
  | consoleError (msg : String)
  | alertShown (msg : String)
deriving Repr, DecidableEq

def Event.isNavigate : Event → Bool
  | .navigate _ => true
  | _ => false

def Event.isSetCookie : Event → Bool
  | .setCookie _ _ _ => true
  | _ => false

def Event.isRemoteCreate : Event → Bool
  | .remoteCreate _ _ _ => true
  | _ => false

/-- A document was actually appended: a remote create that succeeded. -/
def Event.isDocAppend : Event → Bool
  | .remoteCreate _ _ ok => ok
  | _ => false

def Event.isSetLoader : Event → Bool
  | .setLoader _ => true
  | _ => false

def Event.isSetErrors : Event → Bool
  | .setErrors _ => true
  | _ => false

def Event.isAlert : Event → Bool
  | .alertShown _ => true
  | _ => false

def Event.isConsoleError : Event → Bool
  | .consoleError _ => true
  | _ => false

/-- The React state of the Login component: formValues, errors, loader. -/
structure LoginState where
  formValues : FormValues
  errors : Errors
  loader : Bool
deriving Repr, DecidableEq

/-- Effect of one event on the component state; world-facing events
(cookie, navigation, logging, alert, remote create) leave it unchanged. -/
def applyEvent (s : LoginState) : Event → LoginState
  | .setLoader b => { s with loader := b }
  | .setFormValues fv => { s with formValues := fv }
  | .setErrors e => { s with errors := e }
  | _ => s

/-- Replay a trace of events over a starting component state. -/
def runTrace (s : LoginState) (tr : List Event) : LoginState :=
  tr.foldl applyEvent s

/-- Outcome of the awaited `addDoc(collection(db, "users"), formValues)` call:
it either resolves or throws with an error rendered as a string. -/
inductive RemoteOutcome where
  | success
  | failure (err : String)
deriving Repr, DecidableEq

/-- The initial (and post-reset) form: all three fields empty. -/
def emptyFormValues : FormValues := ⟨"", "", ""⟩

/-- handleSubmit from Login.tsx as an event trace. It validates first; on any
error it stores the errors and returns. Otherwise it sets the loader, awaits
the remote create; on success it resets the form, sets the "auth-token"
cookie to "dummy-auth-token" expiring 30 days from `now`, and navigates to
"/landing"; on failure it logs and alerts with the same message; either way
the finally block clears the loader. -/
def handleSubmitTrace (remote : RemoteOutcome) (now : Nat) (s : LoginState) :
    List Event :=
  let formErrors := validateForm s.formValues
  if formErrors.isEmpty = false then
    [Event.setErrors formErrors]
  else
    match remote with
    | RemoteOutcome.success =>
        [Event.setLoader true,
         Event.remoteCreate "users" s.formValues true,
         Event.setFormValues emptyFormValues,
         Event.setCookie "auth-token" "dummy-auth-token" (now + 30),
         Event.navigate "/landing",
         Event.setLoader false]
    | RemoteOutcome.failure err =>
        [Event.setLoader true,
         Event.remoteCreate "users" s.formValues false,
         Event.consoleError ("Error adding document: " ++ err),
         Event.alertShown ("Error adding document: " ++ err),
         Event.setLoader false]

/-- The component state after one submit attempt settles. -/
def handleSubmit (remote : RemoteOutcome) (now : Nat) (s : LoginState) :
    LoginState :=
  runTrace s (handleSubmitTrace remote now s)

/-- Outcome of the awaited `signInWithPopup` call: a resolved user whose
refresh token is a string, or a thrown error. -/
inductive GoogleOutcome where
  | success (refreshToken : String)
  | failure (err : String)
deriving Repr, DecidableEq

/-- signInGoogle from Login.tsx as an event trace: on success, set the
"auth-token" cookie to the provider refresh token expiring 30 days from
`now` and navigate to "/landing"; on failure, log to the console only. -/
def signInGoogleTrace (outcome : GoogleOutcome) (now : Nat) : List Event :=
  match outcome with
  | GoogleOutcome.success tok =>
      [Event.setCookie "auth-token" tok (now + 30),
       Event.navigate "/landing"]
  | GoogleOutcome.failure err =>
      [Event.consoleError err]

/-- The browser cookie jar as an association list; `cookies.get` returns the
value of the named cookie, or undefined (here `none`) when absent. -/
def cookiesGet (jar : List (String × String)) (key : String) : Option String :=
  (jar.find? (fun p => p.fst == key)).map Prod.snd

/-- JavaScript truthiness of a string: every string but "" is truthy. -/
def jsTruthy (s : String) : Bool := s != ""

/-- The mount-time useEffect of Login.tsx: read the "auth-token" cookie and,
if the returned value is truthy, navigate to "/landing". -/
def mountTrace (jar : List (String × String)) : List Event :=
  match cookiesGet jar "auth-token" with
  | some v => if jsTruthy v then [Event.navigate "/landing"] else []
  | none => []

/-- The value carried by the participant multi-select change event in
AddExpense.tsx: on autofill a stringified value, otherwise an array. -/
inductive SelectChangeValue where
  | str (s : String)
  | arr (l : List String)
deriving Repr, DecidableEq

/-- handleChange from AddExpense.tsx: split a string value on commas,
pass an array value through. -/
def handleChange (v : SelectChangeValue) : List String :=
  match v with
  | SelectChangeValue.str s => jsSplitComma s
  | SelectChangeValue.arr l => l

/-- The whole local state of the AddExpense component: the single
`personName` useState holding the selected participants. -/
structure AddExpenseState where
  personName : List String
deriving Repr, DecidableEq

/-- The setPersonName call inside handleChange replaces the selection
wholesale with the normalised event value. -/
def addExpenseOnChange (_s : AddExpenseState) (v : SelectChangeValue) :
    AddExpenseState :=
  { personName := handleChange v }

/-! ## Helper lemmas about the validator -/

theorem isTenDigits_iff (s : String) :
    isTenDigits s = true ↔ s.length = 10 ∧ ∀ c ∈ s.data, c.isDigit = true := by
  simp [isTenDigits, List.all_eq_true]

theorem validateForm_name (fv : FormValues) :
    (validateForm fv).name =
      (if jsTrim fv.name = "" then some "Name is required" else none) := rfl

theorem validateForm_mobileNumber (fv : FormValues) :
    (validateForm fv).mobileNumber =
      (if jsTrim fv.mobileNumber = "" then some "Mobile number is required"
       else if isTenDigits fv.mobileNumber then none
       else some "Mobile number must be 10 digits") := rfl

theorem validateForm_password (fv : FormValues) :
    (validateForm fv).password =
      (if jsTrim fv.password = "" then some "Password is required"
       else if fv.password.length < 6 then some "Password must be at least 6 characters"
       else none) := rfl

/-! ## Claims about the Field Validator -/

/-- Claim C4: for every FormValues record, the validator's mobileNumber
result is the required-message when the field is empty after trimming,
otherwise the ten-digit message when the untrimmed string is not exactly
ten decimal digits, otherwise no error; with the spec's four examples. -/
theorem c4_mobile_number_rule (fv : FormValues) :
    ((validateForm fv).mobileNumber = some "Mobile number is required" ↔
      jsTrim fv.mobileNumber = "") ∧
    ((validateForm fv).mobileNumber = some "Mobile number must be 10 digits" ↔
      (jsTrim fv.mobileNumber ≠ "" ∧
        ¬ (fv.mobileNumber.length = 10 ∧ ∀ c ∈ fv.mobileNumber.data, c.isDigit = true))) ∧
    ((validateForm fv).mobileNumber = none ↔
      (jsTrim fv.mobileNumber ≠ "" ∧ fv.mobileNumber.length = 10 ∧
        ∀ c ∈ fv.mobileNumber.data, c.isDigit = true)) ∧
    (validateForm ⟨"x", "5551234567", "p"⟩).mobileNumber = none ∧
    (validateForm ⟨"x", "123", "p"⟩).mobileNumber =
      some "Mobile number must be 10 digits" ∧
    (validateForm ⟨"x", "55512345a", "p"⟩).mobileNumber =
      some "Mobile number must be 10 digits" ∧
    (validateForm ⟨"x", "", "p"⟩).mobileNumber =
      some "Mobile number is required" := by
  refine ⟨?_, ?_, ?_, by decide, by decide, by decide, by decide⟩
  · rw [validateForm_mobileNumber]
    by_cases h1 : jsTrim fv.mobileNumber = "" <;>
      by_cases h2 : isTenDigits fv.mobileNumber = true <;>
        simp [h1, h2]
  · rw [validateForm_mobileNumber, ← isTenDigits_iff fv.mobileNumber]
    by_cases h1 : jsTrim fv.mobileNumber = "" <;>
      by_cases h2 : isTenDigits fv.mobileNumber = true <;>
        simp [h1, h2]
  · rw [validateForm_mobileNumber, ← isTenDigits_iff fv.mobileNumber]
    by_cases h1 : jsTrim fv.mobileNumber = "" <;>
      by_cases h2 : isTenDigits fv.mobileNumber = true <;>
        simp [h1, h2]

/-- Witness for C4 at a concrete ten-digit input. -/
theorem c4_mobile_number_rule_witness :
    (validateForm ⟨"x", "0123456789", "p"⟩).mobileNumber = none :=
  (c4_mobile_number_rule ⟨"x", "0123456789", "p"⟩).2.2.1.mpr
    ⟨by decide, by decide, by decide⟩

/-- Claim C5: for every FormValues record, the validator's password result
is the required-message when the field is empty after trimming, otherwise
the minimum-length message when the untrimmed length is below 6, otherwise
no error; with the spec's three examples. -/
theorem c5_password_rule (fv : FormValues) :
    ((validateForm fv).password = some "Password is required" ↔
      jsTrim fv.password = "") ∧
    ((validateForm fv).password = some "Password must be at least 6 characters" ↔
      (jsTrim fv.password ≠ "" ∧ fv.password.length < 6)) ∧
    ((validateForm fv).password = none ↔
      (jsTrim fv.password ≠ "" ∧ 6 ≤ fv.password.length)) ∧
    (validateForm ⟨"x", "5551234567", "abcde"⟩).password =
      some "Password must be at least 6 characters" ∧
    (validateForm ⟨"x", "5551234567", "abcdef"⟩).password = none ∧
    (validateForm ⟨"x", "5551234567", ""⟩).password =
      some "Password is required" := by
  refine ⟨?_, ?_, ?_, by decide, by decide, by decide⟩ <;>
  · rw [validateForm_password]
    by_cases h1 : jsTrim fv.password = "" <;>
      by_cases h2 : fv.password.length < 6 <;>
        simp [h1, h2] <;> omega

/-- Witness for C5 at a concrete six-character password. -/
theorem c5_password_rule_witness :
    (validateForm ⟨"x", "5551234567", "secret"⟩).password = none :=
  (c5_password_rule ⟨"x", "5551234567", "secret"⟩).2.2.1.mpr
    ⟨by decide, by decide⟩

/-- Claim C6: the validator stores a key exactly when its rule fails (name
present iff blank after trimming, and likewise for the other two fields),
the empty record characterises validity, and each field's result depends
only on that field, so the three rules are evaluated independently. -/
theorem c6_validator_shape (fv : FormValues) :
    ((validateForm fv).name.isSome = true ↔ jsTrim fv.name = "") ∧
    ((validateForm fv).mobileNumber.isSome = true ↔
      (jsTrim fv.mobileNumber = "" ∨ isTenDigits fv.mobileNumber = false)) ∧
    ((validateForm fv).password.isSome = true ↔
      (jsTrim fv.password = "" ∨ fv.password.length < 6)) ∧
    ((validateForm fv).isEmpty = true ↔
      ((validateForm fv).name = none ∧ (validateForm fv).mobileNumber = none ∧
        (validateForm fv).password = none)) ∧
    (∀ g : FormValues, g.name = fv.name →
      (validateForm g).name = (validateForm fv).name) ∧
    (∀ g : FormValues, g.mobileNumber = fv.mobileNumber →
      (validateForm g).mobileNumber = (validateForm fv).mobileNumber) ∧
    (∀ g : FormValues, g.password = fv.password →
      (validateForm g).password = (validateForm fv).password) := by
  refine ⟨?_, ?_, ?_, ?_, ?_, ?_, ?_⟩
  · rw [validateForm_name]
    by_cases h1 : jsTrim fv.name = "" <;> simp [h1]
  · rw [validateForm_mobileNumber]
    by_cases h1 : jsTrim fv.mobileNumber = "" <;>
      by_cases h2 : isTenDigits fv.mobileNumber = true <;>
        simp [h1, h2]
  · rw [validateForm_password]
    by_cases h1 : jsTrim fv.password = "" <;>
      by_cases h2 : fv.password.length < 6 <;>
        simp [h1, h2]
  · simp [Errors.isEmpty, Option.isNone_iff_eq_none, Bool.and_eq_true, and_assoc]
  · intro g hg
    rw [validateForm_name, validateForm_name, hg]
  · intro g hg
    rw [validateForm_mobileNumber, validateForm_mobileNumber, hg]
  · intro g hg
    rw [validateForm_password, validateForm_password, hg]

/-- Witness for C6: two records that agree on name get the same name error. -/
theorem c6_validator_shape_witness :
    (validateForm ⟨"", "5551234567", "abcdef"⟩).name =
      (validateForm ⟨"", "", ""⟩).name :=
  (c6_validator_shape ⟨"", "", ""⟩).2.2.2.2.1 ⟨"", "5551234567", "abcdef"⟩ rfl

/-! ## Claims about the Submission Sequencer -/

/-- A valid form state used to instantiate the submit claims. -/
def sampleValidState : LoginState :=
  ⟨⟨"John", "5551234567", "secret1"⟩, {}, false⟩

/-- Claim C1: on a form that validates with a succeeding remote write,
handleSubmit appends the submitted FormValues to the "users" collection,
resets the form to empty, sets the "auth-token" cookie to the placeholder
with expiry 30 days from now, and navigates once to "/landing", in that
order, with the loader false once the attempt settles. -/
theorem c1_submit_success (now : Nat) (s : LoginState)
    (h : (validateForm s.formValues).isEmpty = true) :
    handleSubmitTrace RemoteOutcome.success now s =
      [Event.setLoader true,
       Event.remoteCreate "users" s.formValues true,
       Event.setFormValues emptyFormValues,
       Event.setCookie "auth-token" "dummy-auth-token" (now + 30),
       Event.navigate "/landing",
       Event.setLoader false] ∧
    (handleSubmitTrace RemoteOutcome.success now s).countP Event.isDocAppend = 1 ∧
    (handleSubmitTrace RemoteOutcome.success now s).countP Event.isNavigate = 1 ∧
    (handleSubmit RemoteOutcome.success now s).formValues = emptyFormValues ∧
    (handleSubmit RemoteOutcome.success now s).loader = false := by
  have htr : handleSubmitTrace RemoteOutcome.success now s =
      [Event.setLoader true,
       Event.remoteCreate "users" s.formValues true,
       Event.setFormValues emptyFormValues,
       Event.setCookie "auth-token" "dummy-auth-token" (now + 30),
       Event.navigate "/landing",
       Event.setLoader false] := by
    simp [handleSubmitTrace, h]
  refine ⟨htr, ?_, ?_, ?_, ?_⟩ <;>
    simp [htr, handleSubmit, runTrace, applyEvent, List.countP_cons,
      Event.isDocAppend, Event.isNavigate]

/-- Witness for C1 at a concrete valid form. -/
theorem c1_submit_success_witness :
    (handleSubmit RemoteOutcome.success 0 sampleValidState).formValues =
      emptyFormValues :=
  (c1_submit_success 0 sampleValidState (by decide)).2.2.2.1

/-- Claim C2: on a form that validates with a failing remote write,
handleSubmit leaves the form values unchanged, sets no cookie, performs no
navigation, appends no document, logs the error and shows exactly one
alert, and the loader is false once the attempt settles. -/
theorem c2_submit_failure (now : Nat) (err : String) (s : LoginState)
    (h : (validateForm s.formValues).isEmpty = true) :
    handleSubmitTrace (RemoteOutcome.failure err) now s =
      [Event.setLoader true,
       Event.remoteCreate "users" s.formValues false,
       Event.consoleError ("Error adding document: " ++ err),
       Event.alertShown ("Error adding document: " ++ err),
       Event.setLoader false] ∧
    (handleSubmit (RemoteOutcome.failure err) now s).formValues = s.formValues ∧
    (handleSubmitTrace (RemoteOutcome.failure err) now s).countP Event.isSetCookie = 0 ∧
    (handleSubmitTrace (RemoteOutcome.failure err) now s).countP Event.isNavigate = 0 ∧
    (handleSubmitTrace (RemoteOutcome.failure err) now s).countP Event.isDocAppend = 0 ∧
    (handleSubmitTrace (RemoteOutcome.failure err) now s).countP Event.isAlert = 1 ∧
    (handleSubmitTrace (RemoteOutcome.failure err) now s).countP Event.isConsoleError = 1 ∧
    (handleSubmit (RemoteOutcome.failure err) now s).loader = false := by
  have htr : handleSubmitTrace (RemoteOutcome.failure err) now s =
      [Event.setLoader true,
       Event.remoteCreate "users" s.formValues false,
       Event.consoleError ("Error adding document: " ++ err),
       Event.alertShown ("Error adding document: " ++ err),
       Event.setLoader false] := by
    simp [handleSubmitTrace, h]
  refine ⟨htr, ?_, ?_, ?_, ?_, ?_, ?_, ?_⟩ <;>
    simp [htr, handleSubmit, runTrace, applyEvent, List.countP_cons,
      Event.isSetCookie, Event.isNavigate, Event.isDocAppend, Event.isAlert,
      Event.isConsoleError]

/-- Witness for C2 at a concrete valid form and a concrete error. -/
theorem c2_submit_failure_witness :
    (handleSubmit (RemoteOutcome.failure "boom") 0 sampleValidState).formValues =
      sampleValidState.formValues :=
  (c2_submit_failure 0 "boom" sampleValidState (by decide)).2.1

/-- Claim C3: on a form that fails validation, handleSubmit stores the
validator's errors and stops: the remote create is never attempted, the
loader is never touched (so it stays at its prior value, false throughout
when it starts false), the form values are unchanged, and on the all-empty
form the stored errors are exactly the three required-messages. -/
theorem c3_submit_invalid (remote : RemoteOutcome) (now : Nat) (s : LoginState)
    (h : (validateForm s.formValues).isEmpty = false) :
    handleSubmitTrace remote now s = [Event.setErrors (validateForm s.formValues)] ∧
    (handleSubmitTrace remote now s).countP Event.isRemoteCreate = 0 ∧
    (handleSubmitTrace remote now s).countP Event.isSetLoader = 0 ∧
    (handleSubmit remote now s).errors = validateForm s.formValues ∧
    (handleSubmit remote now s).loader = s.loader ∧
    (handleSubmit remote now s).formValues = s.formValues ∧
    validateForm emptyFormValues =
      ⟨some "Name is required", some "Mobile number is required",
       some "Password is required"⟩ := by
  have htr : handleSubmitTrace remote now s =
      [Event.setErrors (validateForm s.formValues)] := by
    simp [handleSubmitTrace, h]
  refine ⟨htr, ?_, ?_, ?_, ?_, ?_, by decide⟩ <;>
    simp [htr, handleSubmit, runTrace, applyEvent, List.countP_cons,
      Event.isRemoteCreate, Event.isSetLoader]

/-- Witness for C3 at the all-empty form. -/
theorem c3_submit_invalid_witness :
    (handleSubmit RemoteOutcome.success 0 ⟨emptyFormValues, {}, false⟩).errors =
      validateForm emptyFormValues :=
  (c3_submit_invalid RemoteOutcome.success 0 ⟨emptyFormValues, {}, false⟩
    (by decide)).2.2.2.1

/-- A state carrying a stale error record together with valid form values,
exhibiting that a passing submit does not clear the stored errors. -/
def staleErrorState : LoginState :=
  ⟨⟨"John", "5551234567", "secret1"⟩, ⟨some "Name is required", none, none⟩, false⟩

/-- Counterexample to C7 as stated: after a submit attempt whose validation
passes, the stored errors are not the validator's (empty) output — the
stale record from the previous failed attempt survives. -/
theorem c7_errors_counterexample :
    (validateForm staleErrorState.formValues).isEmpty = true ∧
    (handleSubmit RemoteOutcome.success 0 staleErrorState).errors ≠
      validateForm staleErrorState.formValues := by
  constructor
  · decide
  · decide

/-- Claim C7 as amended: the stored errors after a submit attempt are the
validator's output when validation fails (overwritten wholesale), and the
previous errors record unchanged when validation passes — setErrors is not
invoked on the passing path. -/
theorem c7_errors_update (remote : RemoteOutcome) (now : Nat) (s : LoginState) :
    (handleSubmit remote now s).errors =
      (if (validateForm s.formValues).isEmpty = true then s.errors
       else validateForm s.formValues) := by
  by_cases h : (validateForm s.formValues).isEmpty = true
  · cases remote <;>
      simp [handleSubmit, handleSubmitTrace, h, runTrace, applyEvent]
  · rw [Bool.not_eq_true] at h
    simp [handleSubmit, handleSubmitTrace, h, runTrace, applyEvent]

/-! ## Claims about the federated sign-in path, the mount guard and the
add-expense selection handler -/

/-- Claim C8: signInGoogle never touches the validator's error state; on
success it sets the "auth-token" cookie to the provider refresh token with
expiry 30 days from now and then navigates to "/landing"; on failure it
only logs — no alert, no cookie, no navigation. -/
theorem c8_sign_in_google (now : Nat) (tok err : String) :
    signInGoogleTrace (GoogleOutcome.success tok) now =
      [Event.setCookie "auth-token" tok (now + 30),
       Event.navigate "/landing"] ∧
    signInGoogleTrace (GoogleOutcome.failure err) now =
      [Event.consoleError err] ∧
    (signInGoogleTrace (GoogleOutcome.failure err) now).countP Event.isAlert = 0 ∧
    (signInGoogleTrace (GoogleOutcome.failure err) now).countP Event.isSetCookie = 0 ∧
    (signInGoogleTrace (GoogleOutcome.failure err) now).countP Event.isNavigate = 0 ∧
    (∀ o : GoogleOutcome, (signInGoogleTrace o now).countP Event.isSetErrors = 0) := by
  refine ⟨rfl, rfl, rfl, rfl, rfl, ?_⟩
  intro o
  cases o <;> rfl

/-- A cookie jar whose "auth-token" entry is present but empty: present,
yet falsy in JavaScript. -/
def emptyTokenJar : List (String × String) := [("auth-token", "")]

/-- Counterexample to C9 as stated: with the "auth-token" cookie present
but holding the empty string, the mount effect does not navigate. -/
theorem c9_mount_counterexample :
    (cookiesGet emptyTokenJar "auth-token").isSome = true ∧
    mountTrace emptyTokenJar = [] := by
  constructor
  · decide
  · decide

/-- Claim C9 as amended: the mount guard navigates to "/landing" exactly
when the "auth-token" cookie is present with a truthy (non-empty) value —
no other check is performed on the value — and does nothing otherwise, in
particular when the cookie is absent. -/
theorem c9_mount_guard (jar : List (String × String)) :
    (mountTrace jar = [Event.navigate "/landing"] ↔
      ∃ v, cookiesGet jar "auth-token" = some v ∧ v ≠ "") ∧
    (mountTrace jar = [] ↔
      ¬ ∃ v, cookiesGet jar "auth-token" = some v ∧ v ≠ "") ∧
    (cookiesGet jar "auth-token" = none → mountTrace jar = []) := by
  rcases hget : cookiesGet jar "auth-token" with _ | v
  · simp [mountTrace, hget]
  · by_cases hv : v = ""
    · subst hv
      simp [mountTrace, hget, jsTruthy]
    · simp [mountTrace, hget, jsTruthy, hv]

/-- Witness for C9 at a jar holding a non-empty token. -/
theorem c9_mount_guard_witness :
    mountTrace [("auth-token", "tok")] = [Event.navigate "/landing"] :=
  (c9_mount_guard [("auth-token", "tok")]).1.mpr ⟨"tok", by decide, by decide⟩

/-- Claim C10: the participant multi-select change handler stores the
comma-split of a string event value and an array event value as-is, so
the stored selection is always a list of strings and replaces the previous
selection wholesale; the selection is the component's only state. -/
theorem c10_handle_change (prev : AddExpenseState) (s : String) (l : List String) :
    addExpenseOnChange prev (SelectChangeValue.str s) =
      ⟨jsSplitComma s⟩ ∧
    addExpenseOnChange prev (SelectChangeValue.arr l) = ⟨l⟩ ∧
    (∀ v : SelectChangeValue, (addExpenseOnChange prev v).personName = handleChange v) ∧
    handleChange (SelectChangeValue.str "Oliver Hansen,Van Henry") =
      ["Oliver Hansen", "Van Henry"] ∧
    handleChange (SelectChangeValue.str "") = [""] := by
  refine ⟨rfl, rfl, fun v => rfl, by decide, by decide⟩

end DailyExpense
